import Mathlib

/-!
# Verification of the stock-report pipeline (`stock_mail.py`)

A shallow embedding of the data-transformation pipeline of `stock_mail.py`:
normalizing numeric columns (`pd.to_numeric(..., errors='coerce')`),
deriving 昨收 (previous close), 漲幅 (percent change) and 成交額(億)
(turnover in hundred millions), screening by 漲幅 > 2.5, ranking via
`sort_values(..., ascending=False).head(20)`, and rendering the HTML
tables and report document.

Numeric cells are modelled by `PVal`, an extended-rational value domain
mirroring the IEEE float semantics pandas uses: a `NaN` state (produced by
`errors='coerce'` on parse failure and propagated through arithmetic),
signed infinities (produced by division by zero, and parseable from the
`inf`/`infinity` word forms that `pd.to_numeric`'s `floatify` accepts),
and finite values (modelled exactly as rationals; binary-float rounding
error of individual operations is not modelled, signed zero is not
modelled).
-/

/-- Extended value domain for a pandas float64 cell: `nan` (missing /
unparseable), signed infinities, or a finite value (as an exact rational). -/
inductive PVal where
  | nan : PVal
  | ninf : PVal
  | pinf : PVal
  | num : ℚ → PVal
deriving DecidableEq

namespace PVal

/-- A value is "known" in the spec's sense: an actual finite number
(the spec defines `percent_change` as "Undefined (non-finite)" in the
degenerate cases, so both `nan` and the infinities count as unknown). -/
def isKnown : PVal → Bool
  | num _ => true
  | _ => false

/-- Is the value the missing-data marker (pandas `NaN`)? -/
def isNan : PVal → Bool
  | nan => true
  | _ => false

/-- IEEE-style subtraction on float cells (`df['收盤價'] - df['漲跌價差']`):
`NaN` propagates; `∞ - ∞ = NaN`. -/
def sub : PVal → PVal → PVal
  | nan, _ => nan
  | _, nan => nan
  | pinf, pinf => nan
  | pinf, _ => pinf
  | ninf, ninf => nan
  | ninf, _ => ninf
  | num _, pinf => ninf
  | num _, ninf => pinf
  | num a, num b => num (a - b)

/-- IEEE-style division on float cells (`df['漲跌價差'] / df['昨收']`):
`NaN` propagates; a nonzero finite value divided by zero gives a signed
infinity, `0/0` gives `NaN`; a finite value divided by an infinity gives 0. -/
def div : PVal → PVal → PVal
  | nan, _ => nan
  | _, nan => nan
  | num a, num b =>
      if b = 0 then (if 0 < a then pinf else if a < 0 then ninf else nan)
      else num (a / b)
  | num _, pinf => num 0
  | num _, ninf => num 0
  | pinf, num b => if b < 0 then ninf else pinf
  | ninf, num b => if b < 0 then pinf else ninf
  | pinf, pinf => nan
  | pinf, ninf => nan
  | ninf, pinf => nan
  | ninf, ninf => nan

/-- Multiplication by a positive finite constant (the `* 100` in the
percent-change formula): infinities keep their sign, `NaN` propagates. -/
def mulPos (c : ℚ) : PVal → PVal
  | nan => nan
  | pinf => pinf
  | ninf => ninf
  | num a => num (a * c)

/-- IEEE-style strict greater-than on float cells (used by
`df['漲幅'] > 2.5` and `val > 5.0`): any comparison with `NaN` is false. -/
def gt : PVal → PVal → Bool
  | nan, _ => false
  | _, nan => false
  | pinf, pinf => false
  | pinf, _ => true
  | ninf, _ => false
  | num _, pinf => false
  | num _, ninf => true
  | num a, num b => decide (b < a)

end PVal

/-- Round a rational to the nearest integer, ties to even — the rounding
mode of `numpy.round`, which `Series.round` uses. -/
def rhe (q : ℚ) : ℤ :=
  let f : ℤ := q.floor
  let r : ℚ := q - (f : ℚ)
  if r < 1/2 then f
  else if 1/2 < r then f + 1
  else if f % 2 = 0 then f else f + 1

/-- Round a rational to `d` decimal places (ties to even), the exact-value
model of `Series.round(d)`. -/
def roundTo (d : Nat) (q : ℚ) : ℚ := (rhe (q * (10 : ℚ) ^ d) : ℚ) / (10 : ℚ) ^ d

/-- `Series.round(d)` on a float cell: rounds finite values to `d` decimal
places; `NaN` and the infinities are fixed points (as in numpy). -/
def PVal.roundP (d : Nat) : PVal → PVal
  | .num q => .num (roundTo d q)
  | v => v

/-- Digit-string to number: `some` of the decimal value when the (nonempty)
character list is all digits, else `none`. -/
def digitsToNat? (cs : List Char) : Option Nat :=
  if cs.isEmpty then none
  else if cs.all (fun c => c.isDigit) then
    some (cs.foldl (fun a c => a * 10 + (c.toNat - 48)) 0)
  else none

/-- Python-style strip of leading and trailing whitespace on a character
list. -/
def trimChars (cs : List Char) : List Char :=
  ((cs.dropWhile Char.isWhitespace).reverse.dropWhile Char.isWhitespace).reverse

/-- The mantissa of the number grammar of pandas `precise_xstrtod`:
an integer part and/or a fractional part separated by a dot, at least
one digit overall (`"5"`, `"5."`, `".5"`, `"5.25"`). -/
def parseMantissa (body : List Char) : Option ℚ :=
  match body.splitOn '.' with
  | [intPart] =>
      match digitsToNat? intPart with
      | some n => some (n : ℚ)
      | none => none
  | [intPart, fracPart] =>
      if intPart.isEmpty && fracPart.isEmpty then none
      else
        let ip : Option Nat := if intPart.isEmpty then some 0 else digitsToNat? intPart
        let fp : Option Nat := if fracPart.isEmpty then some 0 else digitsToNat? fracPart
        match ip, fp with
        | some i, some f =>
            some ((i : ℚ) + (f : ℚ) / (10 : ℚ) ^ fracPart.length)
        | _, _ => none
  | _ => none

/-- The exponent of the scientific form: an optional sign and at least
one digit. -/
def parseExp (cs : List Char) : Option ℤ :=
  match cs with
  | '-' :: rest => (digitsToNat? rest).map (fun n => -(n : ℤ))
  | '+' :: rest => (digitsToNat? rest).map (fun n => (n : ℤ))
  | _ => (digitsToNat? cs).map (fun n => (n : ℤ))

/-- Scale a mantissa by a power of ten (the exact value of `m·10^e`). -/
def applyExp (m : ℚ) (e : ℤ) : ℚ :=
  if 0 ≤ e then m * (10 : ℚ) ^ e.toNat else m / (10 : ℚ) ^ (-e).toNat

/-- The numeric grammar of pandas `precise_xstrtod` (what
`pd.to_numeric` parses a cell's text with, before the infinity-word
fallback): surrounding whitespace ignored, then an optional sign, a
mantissa, and an optional case-insensitive `e`-exponent with its own
optional sign (`"600"`, `"-5.25"`, `"1.5e3"`, `"2E-2"`).  Anything else
is a parse failure, `none`. -/
def parseDecimal (s : String) : Option ℚ :=
  let t := trimChars s.data
  let (sign, body) : ℚ × List Char :=
    match t with
    | '-' :: rest => (-1, rest)
    | '+' :: rest => (1, rest)
    | _ => (1, t)
  let bodyL := body.map (fun c => if c = 'E' then 'e' else c)
  match bodyL.splitOn 'e' with
  | [mant] =>
      match parseMantissa mant with
      | some m => some (sign * m)
      | none => none
  | [mant, expPart] =>
      match parseMantissa mant, parseExp expPart with
      | some m, some e => some (sign * applyExp m e)
      | _, _ => none
  | _ => none

/-- The infinity word forms `floatify` (pandas `parse_helper.h`) accepts
when the numeric grammar fails: exactly `inf`, `+inf`, `-inf`,
`infinity`, `+infinity`, `-infinity`, case-insensitively and with no
surrounding whitespace (`strcasecmp` runs on the whole cell text).
`some true` is `+∞`, `some false` is `-∞`. -/
def infWordSign (s : String) : Option Bool :=
  let t := s.data.map Char.toLower
  if t = "inf".data ∨ t = "+inf".data ∨ t = "infinity".data ∨ t = "+infinity".data then
    some true
  else if t = "-inf".data ∨ t = "-infinity".data then some false
  else none

/-- `floatify` (pandas `parse_helper.h`), the cell parse behind
`pd.to_numeric`: try the `precise_xstrtod` numeric grammar, then fall
back to the infinity word forms; `none` is a parse error. -/
def floatify (s : String) : Option PVal :=
  match parseDecimal s with
  | some q => some (.num q)
  | none =>
      match infWordSign s with
      | some true => some .pinf
      | some false => some .ninf
      | none => none

/-- `str.replace(',', '')`: delete every comma (the thousands separators)
from the cell text. -/
def stripCommas (s : String) : String := String.mk (s.data.filter (fun c => c ≠ ','))

/-- `pd.to_numeric(df[col].astype(str).str.replace(',', ''), errors='coerce')`
on one cell: strip commas, parse with `floatify` (so a cell's text can
also denote `±∞`); on parse failure the cell becomes `NaN` (the
"unknown" marker) instead of raising. -/
def toNumeric (s : String) : PVal :=
  (floatify (stripCommas s)).getD .nan

/-- One raw CSV row, holding the five columns the pipeline reads, as text.
Field names follow the spec's names for the source's Chinese column labels:
`securityCode` = 證券代號, `securityName` = 證券名稱,
`turnoverAmountRaw` = 成交金額, `closingPriceRaw` = 收盤價,
`priceChangeRaw` = 漲跌價差. -/
structure RawRow where
  securityCode : String
  securityName : String
  turnoverAmountRaw : String
  closingPriceRaw : String
  priceChangeRaw : String
deriving DecidableEq

/-- One normalized record: the parsed numeric columns plus the three
derived columns the normalizer adds (`previousClose` = 昨收,
`percentChange` = 漲幅, `turnoverHundredMillion` = 成交額(億)). -/
structure Record where
  securityCode : String
  securityName : String
  turnoverAmount : PVal
  closingPrice : PVal
  priceChange : PVal
  previousClose : PVal
  percentChange : PVal
  turnoverHundredMillion : PVal
deriving DecidableEq

/-- The normalizer, lines 60–67 of `stock_mail.py`, restricted to one row
(the pandas code applies each step columnwise; every step is elementwise,
so the whole normalization is a per-row map):
parse the three numeric columns with comma-strip + coerce, then
`昨收 = 收盤價 - 漲跌價差`, `漲幅 = round((漲跌價差 / 昨收) * 100, 2)`,
`成交額(億) = round(成交金額 / 100000000, 1)`.  Rounding is applied once,
at the end, never to an intermediate value. -/
def normalizeRow (r : RawRow) : Record :=
  let t := toNumeric r.turnoverAmountRaw
  let c := toNumeric r.closingPriceRaw
  let ch := toNumeric r.priceChangeRaw
  let prev := c.sub ch
  let pct := ((ch.div prev).mulPos 100).roundP 2
  let thm := (t.div (.num 100000000)).roundP 1
  { securityCode := r.securityCode
    securityName := r.securityName
    turnoverAmount := t
    closingPrice := c
    priceChange := ch
    previousClose := prev
    percentChange := pct
    turnoverHundredMillion := thm }

/-- The normalizer over the whole batch: an independent per-row map
(no row can abort the batch). -/
def normalizeAll (rows : List RawRow) : List Record := rows.map normalizeRow

/-- The screener, line 70: `df[df['漲幅'] > 2.5]`, keeping input order.
The float comparison is IEEE `>`, so a `NaN` percent change fails the
predicate (and a `+∞` one passes it). -/
def screen (rs : List Record) : List Record :=
  rs.filter (fun r => r.percentChange.gt (.num (5/2)))

/-! ## The sort (`sort_values(by=key, ascending=False)`)

`DataFrame.sort_values` on one column delegates to pandas `nargsort`:
the `NaN` keys are set aside (placed at the end, `na_position='last'`,
keeping their original order), the non-`NaN` slice and its indices are
reversed when `ascending=False`, argsorted ascending, and the resulting
index order is reversed again.  The inner argsort is modelled as a
stable ascending sort (exact for numpy's insertion-sort path; pandas's
default `kind='quicksort'` leaves the order of exact ties unspecified in
general, see the notes on the ranking claims). -/

/-- Total order on non-`NaN` float keys used by the argsort:
`-∞ <` finite values `< +∞`, finite values by magnitude; `nan` is placed
below everything so that "sorted non-increasing" also covers the
`NaN`-last placement of `nargsort`. -/
def pvLE (a b : PVal) : Bool :=
  match a, b with
  | .nan, _ => true
  | _, .nan => false
  | .ninf, _ => true
  | _, .ninf => false
  | .num _, .pinf => true
  | .pinf, .pinf => true
  | .pinf, .num _ => false
  | .num x, .num y => decide (x ≤ y)

/-- Insert a record into an (ascending) list: before the first element
whose key is not smaller — the stable position. -/
def insertAsc (key : Record → PVal) (x : Record) : List Record → List Record
  | [] => [x]
  | y :: l => if pvLE (key x) (key y) then x :: y :: l else y :: insertAsc key x l

/-- Stable ascending insertion sort by a key (the model of the inner
argsort on the non-`NaN` slice). -/
def sortAsc (key : Record → PVal) : List Record → List Record
  | [] => []
  | x :: l => insertAsc key x (sortAsc key l)

/-- `sort_values(by=key, ascending=False)` via `nargsort`: the non-`NaN`
keyed rows are reversed, argsorted ascending, reversed again (yielding the
descending order), and the `NaN`-keyed rows are appended at the end in
their original order. -/
def sortValuesDesc (key : Record → PVal) (rs : List Record) : List Record :=
  let nonNans := rs.filter (fun r => !(key r).isNan)
  let nans := rs.filter (fun r => (key r).isNan)
  (sortAsc key nonNans.reverse).reverse ++ nans

/-- The ranking step of `generate_styled_table`:
`data_df.sort_values(by=sort_by, ascending=False).head(20)`. -/
def rankView (key : Record → PVal) (rs : List Record) : List Record :=
  (sortValuesDesc key rs).take 20

/-! ## Rendering -/

/-- The replacement of one character under the HTML escaping that the
spec mandates for free-text fields (as Python's `html.escape` does). -/
def escapeChar (c : Char) : List Char :=
  if c = '&' then "&amp;".data
  else if c = '<' then "&lt;".data
  else if c = '>' then "&gt;".data
  else if c = '"' then "&quot;".data
  else [c]

/-- The HTML escaping that the spec mandates for free-text fields. -/
def htmlEscape (s : String) : String :=
  String.mk (s.data.map escapeChar).flatten

/-- The escape hook of `DataFrame.to_html(escape=...)` applied to one cell:
`generate_styled_table` passes `escape=False`, under which every cell is
emitted verbatim. -/
def applyEsc (esc : Bool) (s : String) : String :=
  if esc then htmlEscape s else s

/-- Python `str(x).strip()`: trim surrounding whitespace. -/
def pyStrip (s : String) : String := String.mk (trimChars s.data)

/-- `create_link` (lines 73–76): wrap the security name in an anchor to the
Yahoo quote page for the (stripped) security code.  The name is
interpolated verbatim — the f-string applies no sanitization. -/
def createLink (r : Record) : String :=
  "<a href=\"https://tw.stock.yahoo.com/quote/" ++ pyStrip r.securityCode ++
    "\" style=\"text-decoration:none; color:#0066cc; font-weight:bold;\">" ++
    r.securityName ++ "</a>"

/-- Fixed-width decimal rendering of an integer-in-hundredths etc.:
`m` tenths/hundredths (scale `d`) printed with exactly `d` decimals.
Helper for the `:.2f`-style displays. -/
def showScaled (d : Nat) (m : ℤ) : String :=
  let a := m.natAbs
  let base := (10 : Nat) ^ d
  let intStr := toString (a / base)
  let frac := a % base
  let fracStr := toString frac
  let pad := String.mk (List.replicate (d - fracStr.length) '0')
  (if m < 0 then "-" else "") ++
    (if d = 0 then intStr else intStr ++ "." ++ pad ++ fracStr)

/-- Python `f"{val:.2f}"` on a float cell: two decimal digits for finite
values (half-even on the exact value), `nan`/`inf`/`-inf` otherwise. -/
def showFixed2 : PVal → String
  | .nan => "nan"
  | .pinf => "inf"
  | .ninf => "-inf"
  | .num q => showScaled 2 (rhe (q * 100))

/-- The least number of decimal digits (up to 20) that writes the rational
exactly; display helper for `to_html`'s float rendering. -/
def scaleOf (q : ℚ) : Nat :=
  (((List.range 21).find? (fun k => (q * (10 : ℚ) ^ k).den == 1)).getD 20)

/-- The cell text `to_html` produces for a numeric cell.  Finite values are
written in (exact) decimal; the precise float `repr` of pandas (trailing
zeros, 6-digit truncation) is abstracted, which no claim depends on. -/
def showPVal : PVal → String
  | .nan => "NaN"
  | .pinf => "inf"
  | .ninf => "-inf"
  | .num q => showScaled (scaleOf q) (rhe (q * (10 : ℚ) ^ scaleOf q))

/-- `format_change_color` (lines 78–81): wrap the percent change in a
`span`, red and bold when the value exceeds 5.0 (IEEE `>`, so `NaN` takes
the plain branch), with the value shown to two decimals plus `%`. -/
def formatChangeColor (v : PVal) : String :=
  let color := if v.gt (.num 5) then "#FF0000" else "#D20000"
  let weight := if v.gt (.num 5) then "bold" else "normal"
  "<span style=\"color: " ++ color ++ "; font-weight: " ++ weight ++ ";\">" ++
    showFixed2 v ++ "%</span>"

/-- The displayed columns, in order (line 89):
`['證券代號', '證券名稱', '收盤價', '漲幅', '成交額(億)']`. -/
def tableColumns : List String :=
  ["證券代號", "證券名稱", "收盤價", "漲幅", "成交額(億)"]

/-- The cells of one rendered row, after the two display transforms of
`generate_styled_table`: the raw code, the name replaced by its anchor,
the closing price, the percent change replaced by its colored span, and
the turnover in hundred millions. -/
def rowCells (r : Record) : List String :=
  [r.securityCode, createLink r, showPVal r.closingPrice,
    formatChangeColor r.percentChange, showPVal r.turnoverHundredMillion]

/-- One `<tr>` of the `to_html` body; each cell goes through the escape
hook (a no-op at `escape=False`). -/
def renderRow (esc : Bool) (cells : List String) : String :=
  "<tr>" ++ String.join (cells.map (fun c => "<td>" ++ applyEsc esc c ++ "</td>")) ++ "</tr>"

/-- `DataFrame.to_html(index=False, escape=...)`: a header row from the
column labels and one body row per record (markup shape modelled;
pandas's indentation whitespace is abstracted).  With zero rows the body
is empty but the table element and header are still produced. -/
def htmlTable (esc : Bool) (cols : List String) (rows : List (List String)) : String :=
  "<table border=\"1\" class=\"dataframe\"><thead><tr>" ++
    String.join (cols.map (fun c => "<th>" ++ applyEsc esc c ++ "</th>")) ++
    "</tr></thead><tbody>" ++
    String.join (rows.map (renderRow esc)) ++
    "</tbody></table>"

/-- `generate_styled_table` (lines 84–89): rank (sort descending, take 20),
apply the display transforms, and render with `escape=False`. -/
def generateStyledTable (dataDf : List Record) (key : Record → PVal) : String :=
  htmlTable false tableColumns ((rankView key dataDf).map rowCells)

/-- `generate_styled_table` with the caller's frame made explicit: the
source sorts into `temp_df = data_df.sort_values(...).head(20).copy()` and
mutates only that copy, so the caller's dataframe comes back unchanged.
The pair returns the rendered table and the state of `data_df` after the
call. -/
def generateStyledTableSt (dataDf : List Record) (key : Record → PVal) :
    String × List Record :=
  (generateStyledTable dataDf key, dataDf)

/-- The two sort keys the report uses: `'成交金額'` and `'漲幅'`. -/
def keyTurnover : Record → PVal := fun r => r.turnoverAmount

/-- The percent-change sort key (`'漲幅'`). -/
def keyGain : Record → PVal := fun r => r.percentChange

/-- The fixed CSS block of the report (lines 96–105); the braces of the
source's CSS are `\x7b`/`\x7d` here. -/
def htmlStyle : String :=
  "<style> table \x7b border-collapse: collapse; width: 100%; font-family: \"Microsoft JhengHei\", sans-serif; margin-bottom: 30px; \x7d th \x7b background-color: #4CAF50; color: white; padding: 12px; text-align: left; position: sticky; top: 0; \x7d td \x7b padding: 10px; border-bottom: 1px solid #ddd; \x7d tr:nth-child(even) \x7b background-color: #f9f9f9; \x7d tr:hover \x7b background-color: #f1f1f1; \x7d h3 \x7b color: #2c3e50; border-left: 6px solid #4CAF50; padding-left: 12px; margin-top: 40px; \x7d </style>"

/-- The assembled report document (lines 107–128): style block, title,
report date, screening-condition note, the turnover table, the gain
table, and the fixed footer, in that fixed order (the f-string's
indentation whitespace is abstracted). -/
def fullHtml (dateStr tableVolume tableGain : String) : String :=
  "<html><head>" ++ htmlStyle ++ "</head><body>" ++
    "<h2 style=\"color: #2c3e50;\">📈 台股盤後強勢股篩選報告</h2>" ++
    "<p>報告日期：" ++ dateStr ++ "</p>" ++
    "<p style=\"color: #666;\">篩選條件：漲幅 > 2.5%</p><hr>" ++
    "<h3>🔥 資金焦點：成交額 Top 20</h3>" ++
    "<p style=\"font-size: 14px; color: #888;\">此表依成交金額排序，反映市場大資金流向。</p>" ++
    tableVolume ++
    "<h3>🚀 漲幅先鋒：漲幅 Top 20</h3>" ++
    "<p style=\"font-size: 14px; color: #888;\">此表依漲幅排序，反映當前盤勢最強勁的個股。</p>" ++
    tableGain ++
    "<br><p style=\"color: gray; font-size: 12px; margin-top: 20px;\">註：點擊證券名稱可查看 Yahoo 股市技術線圖。資料來源：證交所 Open Data。</p>" ++
    "</body></html>"

/-- Outcome of one run of `process_and_mail`: either the early return with
the logged failure message (`df is None or df.empty`), or the report
handed to `send_email_report` (delivery itself is the external
collaborator; its own success/failure is out of scope). -/
inductive RunResult where
  | fetchFailed : String → RunResult
  | delivered : String → RunResult
deriving DecidableEq

/-- `process_and_mail` (lines 52–130) over an already-fetched dataset:
`get_stock_data` returns either `(None, error-text)` — here `.error` — or
`(df, "OK")`.  An absent or empty dataframe takes the early-return branch
(printing `無法取得資料` with the status, which is `"OK"` for an empty
frame); otherwise the frame is normalized, screened, the two tables are
generated, and the assembled document is sent. -/
def processAndMail (fetched : Except String (List RawRow)) (today : String) :
    RunResult :=
  match fetched with
  | .error status => .fetchFailed status
  | .ok rows =>
    if rows.isEmpty then .fetchFailed "OK"
    else
      let recs := normalizeAll rows
      let filtered := screen recs
      let tableVolume := generateStyledTable filtered keyTurnover
      let tableGain := generateStyledTable filtered keyGain
      .delivered (fullHtml today tableVolume tableGain)

/-- The `\xa0` clean-up of `get_stock_data` (line 22): replace every
non-breaking space by an ordinary space before parsing. -/
def cleanText (s : String) : String :=
  s.map (fun c => if c = '\u00A0' then ' ' else c)

/-- The header labels of the five columns the pipeline reads. -/
def requiredColumns : List String :=
  ["證券代號", "證券名稱", "成交金額", "收盤價", "漲跌價差"]

/-- Model of `pd.read_csv` on the cleaned dataset text, restricted to what
the pipeline needs: split into lines (tolerating CRLF), read the header,
locate the five required columns, and turn each data line into a
`RawRow`; a missing required column or a data line of the wrong column
cardinality is a parse error (`none`).  Quoted fields are not modelled. -/
def parseCsv (text : String) : Option (List RawRow) :=
  let lines := ((text.splitOn "\n").map (fun l => l.replace "\r" "")).filter
    (fun l => !l.isEmpty)
  match lines with
  | [] => none
  | header :: dataLines =>
    let cols := header.splitOn ","
    match requiredColumns.mapM (fun c => cols.findIdx? (fun h => h == c)) with
    | none => none
    | some idxs =>
      dataLines.mapM (fun line =>
        let fields := line.splitOn ","
        if fields.length = cols.length then
          match idxs.map (fun i => fields.getD i "") with
          | [code, name, turnover, close, change] =>
              some ⟨code, name, turnover, close, change⟩
          | _ => none
        else none)

/-- `get_stock_data` (lines 15–26) over the network response: a transport
failure is the exception text; otherwise the text is cleaned and parsed,
a `read_csv` failure likewise becoming the caught exception's text. -/
def getStockData (response : Option String) : Except String (List RawRow) :=
  match response with
  | none => .error "request failed"
  | some text =>
    match parseCsv (cleanText text) with
    | some rows => .ok rows
    | none => .error "csv parse failed"

/-- The whole run, from the raw network response text and the report date
to the run outcome. -/
def runFromText (response : Option String) (today : String) : RunResult :=
  processAndMail (getStockData response) today

/-- Does `needle` occur as a contiguous block starting at some suffix of
`hay`? (Helper for `strContains`.) -/
def infixOfB (needle : List Char) : List Char → Bool
  | [] => needle.isEmpty
  | c :: rest => needle.isPrefixOf (c :: rest) || infixOfB needle rest

/-- Substring test (used to state rendering facts): is `needle` an infix
of `hay`? -/
def strContains (hay needle : String) : Bool :=
  infixOfB needle.data hay.data

/-! ## Helper lemmas -/

/-- `NaN` absorbs on the right of float subtraction. -/
theorem PVal.sub_nan_right (v : PVal) : v.sub .nan = .nan := by
  cases v <;> rfl

/-- `NaN` absorbs on the left of float subtraction. -/
theorem PVal.sub_nan_left (v : PVal) : PVal.sub .nan v = .nan := by
  cases v <;> rfl

/-- `NaN` absorbs on the right of float division. -/
theorem PVal.div_nan_right (v : PVal) : v.div .nan = .nan := by
  cases v <;> rfl

/-- `NaN` absorbs on the left of float division. -/
theorem PVal.div_nan_left (v : PVal) : PVal.div .nan v = .nan := by
  cases v <;> rfl

/-- A float cell that fails IEEE `x > b` is `NaN`, or at most `b` in the
extended order. -/
theorem gt_false_nan_or_le (a : PVal) (b : ℚ)
    (h : a.gt (.num b) = false) :
    a.isNan = true ∨ pvLE a (.num b) = true := by
  cases a with
  | nan => exact Or.inl rfl
  | pinf => simp [PVal.gt] at h
  | ninf => exact Or.inr rfl
  | num x =>
    refine Or.inr ?_
    simp only [PVal.gt, decide_eq_false_iff_not, not_lt] at h
    simpa [pvLE]

/-- A float cell that passes IEEE `x > b` is not `NaN`. -/
theorem gt_true_not_nan (a b : PVal) (h : a.gt b = true) :
    a.isNan = false := by
  cases a <;> simp_all [PVal.gt, PVal.isNan]

/-- Sorting a single record is the identity, whatever its key. -/
theorem sortValuesDesc_singleton (key : Record → PVal) (r : Record) :
    sortValuesDesc key [r] = [r] := by
  unfold sortValuesDesc
  cases h : (key r).isNan <;> simp [h, sortAsc, insertAsc]

/-! ## Concrete inputs used by the claim witnesses and counterexamples -/

/-- A row whose closing price equals its price change, so the derived
previous close is zero while the price change is nonzero. -/
def rowZeroPrev : RawRow := ⟨"9999", "示例", "1000", "5", "5"⟩

/-- A second such row (used independently by the screener claim). -/
def rowZeroPrev2 : RawRow := ⟨"8888", "另例", "2000", "7", "7"⟩

/-- The spec's end-to-end scenario row: turnover 500000000, close 600,
change 20. -/
def rowTsmc : RawRow := ⟨"2330", "TSMC", "500000000", "600", "20"⟩

/-- A row with an unparseable turnover and parseable prices. -/
def rowBadTurnover : RawRow := ⟨"4444", "壞列", "x", "10", "1"⟩

/-- A row that parses fine but fails the screen (percent change 0). -/
def rowFlat : RawRow := ⟨"1101", "臺泥", "1000", "10", "0"⟩

/-! ## The claims -/

/-- C1 (the code at the failing input): on a row with `收盤價 = 漲跌價差 = 5`
the derived previous close is `0` and the percent change is `+∞` — not an
"unknown" value — and the screener *includes* the record in the screened
set (`inf > 2.5` holds), contradicting the claim that a zero
`previous_close` yields an unknown `percent_change` that fails the
threshold. -/
theorem c1_zero_prev_close_gives_inf_and_passes_screen :
    (normalizeRow rowZeroPrev).previousClose = .num 0 ∧
    (normalizeRow rowZeroPrev).percentChange = .pinf ∧
    (normalizeRow rowZeroPrev).percentChange.isKnown = false ∧
    screen [normalizeRow rowZeroPrev] = [normalizeRow rowZeroPrev] := by
  refine ⟨?_, ?_, ?_, ?_⟩ <;> with_unfolding_all rfl

/-- C4 counterexample: the claim "every returned record has a *known*
`percent_change` strictly greater than 2.5" is false at a concrete
normalized input: the record derived from `rowZeroPrev2` is returned by
the screener although its `percent_change` is not a known value
(it is `+∞`). -/
theorem c4_counterexample_screened_record_with_unknown_percent :
    screen [normalizeRow rowZeroPrev2] = [normalizeRow rowZeroPrev2] ∧
    (normalizeRow rowZeroPrev2).percentChange.isKnown = false := by
  refine ⟨?_, ?_⟩ <;> with_unfolding_all rfl

/-- C4 (amended): the screener's output is a sublist (hence subset, in
order) of its input; every returned record has a non-`NaN`
`percent_change` strictly greater than 2.5 in the extended IEEE order
(which admits `+∞`); and every excluded record has a `NaN`
`percent_change` or one at most 2.5 (including `-∞`). -/
theorem c4_screener_subset_and_threshold (rs : List Record) :
    List.Sublist (screen rs) rs ∧
    (∀ r, r ∈ screen rs →
      r.percentChange.isNan = false ∧
      r.percentChange.gt (.num (5/2)) = true) ∧
    (∀ r, r ∈ rs → r ∉ screen rs →
      r.percentChange.isNan = true ∨ pvLE r.percentChange (.num (5/2)) = true) := by
  refine ⟨List.filter_sublist rs, ?_, ?_⟩
  · intro r hr
    have h := List.of_mem_filter hr
    exact ⟨gt_true_not_nan _ _ h, h⟩
  · intro r hmem hnot
    have h : r.percentChange.gt (.num (5/2)) = false := by
      cases h : r.percentChange.gt (.num (5/2)) with
      | false => rfl
      | true => exact absurd (List.mem_filter.mpr ⟨hmem, h⟩) hnot
    exact gt_false_nan_or_le _ _ h

/-- C4 witness: the amended screener contract applied at a concrete
screened set (the TSMC scenario row, which passes the screen). -/
theorem c4_screener_subset_and_threshold_witness :
    normalizeRow rowTsmc ∈ screen [normalizeRow rowTsmc] ∧
    (normalizeRow rowTsmc).percentChange.isNan = false ∧
    (normalizeRow rowTsmc).percentChange.gt (.num (5/2)) = true := by
  have hs : screen [normalizeRow rowTsmc] = [normalizeRow rowTsmc] := by
    with_unfolding_all rfl
  have hmem : normalizeRow rowTsmc ∈ screen [normalizeRow rowTsmc] := by
    rw [hs]; exact List.mem_singleton_self _
  have h := (c4_screener_subset_and_threshold [normalizeRow rowTsmc]).2.1
    (normalizeRow rowTsmc) hmem
  exact ⟨hmem, h.1, h.2⟩

/-- A row whose closing-price cell reads `"inf"` — text that
`pd.to_numeric` (via `floatify`'s word-form fallback) parses to `+∞`. -/
def rowInfClose : RawRow := ⟨"7777", "驗例", "3000", "inf", "1"⟩

set_option maxRecDepth 100000 in
/-- C5 counterexample: at the concrete row whose 收盤價 cell is `"inf"`
and 漲跌價差 cell is `"1"`, the closing price parses to `+∞` (not a known
value) and the previous close is `+∞` — unknown, as the claim says — but
the percent change is `(1/∞)·100 = 0.00`, a *known* value, refuting "is
unknown otherwise (making percent_change unknown too)". -/
theorem c5_counterexample_infinite_prev_known_pct :
    (normalizeRow rowInfClose).closingPrice = .pinf ∧
    (normalizeRow rowInfClose).closingPrice.isKnown = false ∧
    (normalizeRow rowInfClose).previousClose = .pinf ∧
    (normalizeRow rowInfClose).previousClose.isKnown = false ∧
    (normalizeRow rowInfClose).percentChange = .num 0 ∧
    (normalizeRow rowInfClose).percentChange.isKnown = true := by
  refine ⟨?_, ?_, ?_, ?_, ?_, ?_⟩ <;> with_unfolding_all rfl

/-- C5 (amended): for every raw row, the derived fields of its normalized
record satisfy: (a) when closing price and price change are both known,
the previous close is exactly their difference; (b) a `NaN`
(missing/unparseable) closing price or price change makes the previous
close and the percent change both `NaN`; (b') but an *infinite* parsed
closing price — reachable from cell text, since `pd.to_numeric` accepts
the `inf` word forms — gives an unknown (`+∞`) previous close while the
percent change is still the known value `0.00` for any finite price
change, so "unknown otherwise" holds only for the `NaN` form of unknown;
(c) when the previous close is known and nonzero, the percent change is
exactly `(price_change / previous_close) * 100` rounded — in one step,
after the arithmetic — to 2 decimal places; (d) a known turnover yields
exactly `turnover / 1e8` rounded to 1 decimal place. -/
theorem c5_derived_fields (row : RawRow) :
    (∀ c q : ℚ, (normalizeRow row).closingPrice = .num c →
      (normalizeRow row).priceChange = .num q →
      (normalizeRow row).previousClose = .num (c - q)) ∧
    ((normalizeRow row).closingPrice = .nan ∨ (normalizeRow row).priceChange = .nan →
      (normalizeRow row).previousClose = .nan ∧ (normalizeRow row).percentChange = .nan) ∧
    (∀ q : ℚ, (normalizeRow row).closingPrice = .pinf →
      (normalizeRow row).priceChange = .num q →
      (normalizeRow row).previousClose = .pinf ∧
      (normalizeRow row).percentChange = .num 0) ∧
    (∀ p q : ℚ, (normalizeRow row).previousClose = .num p → p ≠ 0 →
      (normalizeRow row).priceChange = .num q →
      (normalizeRow row).percentChange = .num (roundTo 2 (q / p * 100))) ∧
    (∀ t : ℚ, (normalizeRow row).turnoverAmount = .num t →
      (normalizeRow row).turnoverHundredMillion = .num (roundTo 1 (t / 100000000))) := by
  refine ⟨?_, ?_, ?_, ?_, ?_⟩
  · intro c q hc hq
    simp only [normalizeRow] at hc hq ⊢
    rw [hc, hq]
    rfl
  · intro h
    simp only [normalizeRow] at h ⊢
    rcases h with h | h <;> rw [h]
    · refine ⟨PVal.sub_nan_left _, ?_⟩
      rw [PVal.sub_nan_left, PVal.div_nan_right]
      rfl
    · refine ⟨PVal.sub_nan_right _, ?_⟩
      rw [PVal.sub_nan_right, PVal.div_nan_left]
      rfl
  · intro q hc hq
    simp only [normalizeRow] at hc hq ⊢
    rw [hc, hq]
    exact ⟨rfl, by with_unfolding_all rfl⟩
  · intro p q hp hne hq
    simp only [normalizeRow] at hp hq ⊢
    rw [hp, hq]
    simp only [PVal.div, if_neg hne, PVal.mulPos, PVal.roundP]
  · intro t ht
    simp only [normalizeRow] at ht ⊢
    rw [ht]
    have h8 : (100000000 : ℚ) ≠ 0 := by norm_num
    simp only [PVal.div, if_neg h8, PVal.roundP]

/-- C5 witness: the spec's own scenario (`2330,TSMC,500000000,600,20`):
previous close `580 = 600 - 20`, percent change
`round₂((20/580)*100) = 3.45`, turnover `round₁(5.0) = 5.0`. -/
theorem c5_derived_fields_witness :
    (normalizeRow rowTsmc).previousClose = .num (600 - 20) ∧
    (normalizeRow rowTsmc).percentChange = .num (roundTo 2 (20 / 580 * 100)) ∧
    (normalizeRow rowTsmc).turnoverHundredMillion = .num (roundTo 1 (500000000 / 100000000)) ∧
    roundTo 2 (20 / 580 * 100) = 69 / 20 := by
  have h := c5_derived_fields rowTsmc
  have hc : (normalizeRow rowTsmc).closingPrice = .num 600 := by with_unfolding_all rfl
  have hq : (normalizeRow rowTsmc).priceChange = .num 20 := by with_unfolding_all rfl
  have ht : (normalizeRow rowTsmc).turnoverAmount = .num 500000000 := by
    with_unfolding_all rfl
  have hprev := h.1 600 20 hc hq
  have hprev580 : (normalizeRow rowTsmc).previousClose = .num 580 := by
    rw [hprev]; norm_num
  refine ⟨hprev, ?_, h.2.2.2.2 500000000 ht, ?_⟩
  · exact h.2.2.2.1 580 20 hprev580 (by norm_num) hq
  · with_unfolding_all rfl

/-- C6: the normalizer treats rows independently — normalizing a batch
with an arbitrary (possibly malformed) row in the middle is exactly the
normalization of the surrounding rows with that one row's normalization
spliced in, the batch is never aborted or shortened, each of the three
numeric fields is produced by the comma-strip + `floatify` parse of that
row's cell alone, and a cell whose text fails to parse makes exactly
that field `NaN`. -/
theorem c6_row_error_isolation (pre post : List RawRow) (bad : RawRow) :
    normalizeAll (pre ++ bad :: post) =
      normalizeAll pre ++ normalizeRow bad :: normalizeAll post ∧
    (normalizeAll (pre ++ bad :: post)).length = pre.length + 1 + post.length ∧
    (normalizeRow bad).turnoverAmount = toNumeric bad.turnoverAmountRaw ∧
    (normalizeRow bad).closingPrice = toNumeric bad.closingPriceRaw ∧
    (normalizeRow bad).priceChange = toNumeric bad.priceChangeRaw ∧
    (floatify (stripCommas bad.turnoverAmountRaw) = none →
      (normalizeRow bad).turnoverAmount = .nan) ∧
    (floatify (stripCommas bad.closingPriceRaw) = none →
      (normalizeRow bad).closingPrice = .nan) ∧
    (floatify (stripCommas bad.priceChangeRaw) = none →
      (normalizeRow bad).priceChange = .nan) := by
  refine ⟨by simp [normalizeAll], by simp [normalizeAll]; omega, rfl, rfl, rfl, ?_, ?_, ?_⟩
    <;> intro h <;> simp only [normalizeRow] <;> unfold toNumeric <;> rw [h] <;> rfl

/-- C6 witness: a concrete batch `[good row, bad row]` whose second row
has unparseable turnover text `"x"`: the batch maps to the two
normalizations, and the bad row's turnover — and only that field — is
`NaN`. -/
theorem c6_row_error_isolation_witness :
    normalizeAll ([rowFlat] ++ rowBadTurnover :: []) =
      normalizeAll [rowFlat] ++ normalizeRow rowBadTurnover :: normalizeAll [] ∧
    floatify (stripCommas rowBadTurnover.turnoverAmountRaw) = none ∧
    (normalizeRow rowBadTurnover).turnoverAmount = .nan ∧
    (normalizeRow rowBadTurnover).closingPrice = .num 10 := by
  have hnone : floatify (stripCommas rowBadTurnover.turnoverAmountRaw) = none := by
    with_unfolding_all rfl
  refine ⟨(c6_row_error_isolation [rowFlat] [] rowBadTurnover).1, hnone,
    (c6_row_error_isolation [rowFlat] [] rowBadTurnover).2.2.2.2.2.1 hnone, ?_⟩
  with_unfolding_all rfl

/-- C7: the pipeline is a pure function of the raw response text and the
report date — two runs on the same input produce the same (byte-identical)
outcome, including the HTML document handed to delivery. -/
theorem c7_pipeline_deterministic (response : Option String) (today : String)
    (r1 r2 : RunResult)
    (h1 : r1 = runFromText response today) (h2 : r2 = runFromText response today) :
    r1 = r2 := by
  rw [h1, h2]

/-- C7 witness: two runs at a concrete response and date coincide. -/
theorem c7_pipeline_deterministic_witness :
    runFromText (some "證券代號,證券名稱\n") "2026-10-12" =
      runFromText (some "證券代號,證券名稱\n") "2026-10-12" :=
  c7_pipeline_deterministic (some "證券代號,證券名稱\n") "2026-10-12" _ _ rfl rfl

/-- C8: a nonempty dataset none of whose records passes the screen still
completes the run: the screener returns `[]` (not an error), both ranked
tables render from zero rows, and the assembled document — containing the
two empty tables, each still a well-formed `<table>` element with its
header row and an empty body — is delivered. -/
theorem c8_empty_screen_still_delivers (rows : List RawRow) (today : String)
    (hne : rows ≠ []) (hscreen : screen (normalizeAll rows) = []) :
    processAndMail (.ok rows) today =
      .delivered (fullHtml today (htmlTable false tableColumns [])
        (htmlTable false tableColumns [])) ∧
    htmlTable false tableColumns [] =
      "<table border=\"1\" class=\"dataframe\"><thead><tr><th>證券代號</th><th>證券名稱</th><th>收盤價</th><th>漲幅</th><th>成交額(億)</th></tr></thead><tbody></tbody></table>" := by
  constructor
  · have hempty : rows.isEmpty = false := by
      cases rows with
      | nil => exact absurd rfl hne
      | cons a l => rfl
    simp only [processAndMail, hempty, Bool.false_eq_true, if_false, hscreen]
    rfl
  · rfl

/-- C8 witness: a one-row dataset whose record has percent change `0`
(below the threshold): the screen is empty and the empty-table report is
delivered. -/
theorem c8_empty_screen_still_delivers_witness :
    [rowFlat] ≠ ([] : List RawRow) ∧
    screen (normalizeAll [rowFlat]) = [] ∧
    processAndMail (.ok [rowFlat]) "2026-10-12" =
      .delivered (fullHtml "2026-10-12" (htmlTable false tableColumns [])
        (htmlTable false tableColumns [])) := by
  have hs : screen (normalizeAll [rowFlat]) = [] := by with_unfolding_all rfl
  exact ⟨by simp, hs,
    (c8_empty_screen_still_delivers [rowFlat] "2026-10-12" (by simp) hs).1⟩

/-- C9 (implicit): a successful fetch that yields zero data rows takes the
same early-return branch as a fetch failure — the run is aborted with the
logged failure message (whose status text is the `"OK"` returned alongside
the empty frame), identical to the outcome of `get_stock_data` returning
an error `"OK"`, and no report is ever delivered. -/
theorem c9_empty_dataset_aborts_like_fetch_failure (today : String) :
    processAndMail (.ok []) today = .fetchFailed "OK" ∧
    processAndMail (.ok []) today = processAndMail (.error "OK") today ∧
    ∀ html : String, processAndMail (.ok []) today ≠ .delivered html := by
  refine ⟨rfl, rfl, ?_⟩
  intro html h
  exact RunResult.noConfusion h

/-- C10 (implicit): generating a ranked view leaves the screened set
unchanged (`temp_df = ....copy()` — the display transforms hit only the
copy), so a view generated after another is computed from the original
field values: rendering by one key and then by a second from the
returned frame equals rendering by the second key from the original
frame directly. -/
theorem c10_views_do_not_mutate_screened_set (df : List Record)
    (k1 k2 : Record → PVal) :
    (generateStyledTableSt df k1).2 = df ∧
    (generateStyledTableSt ((generateStyledTableSt df k1).2) k2).1 =
      generateStyledTable df k2 ∧
    (generateStyledTableSt df k1).1 = generateStyledTable df k1 :=
  ⟨rfl, rfl, rfl⟩

/-- `String.append` acts as list append on the underlying characters
(definitional; stated for rewriting). -/
theorem strData_append (a b : String) : (a ++ b).data = a.data ++ b.data := rfl

/-- A record whose security name contains angle brackets. -/
def recAngleName : Record :=
  ⟨"3008", "<x>", .num 1000, .num 10, .num 1, .num 9, .num 3, .num 0⟩

set_option maxRecDepth 100000 in
/-- C3 counterexample: rendering a record whose `security_name` is `"<x>"`
produces a table that contains `"<x>"` verbatim and contains no `"&lt;"`
at all — so the free-text `security_name` is *not* escaped anywhere in the
output (the escaped form `htmlEscape "<x>" = "&lt;x&gt;"` never occurs),
refuting the claim that every non-markup free-text field is escaped. -/
theorem c3_counterexample_unescaped_name :
    strContains (generateStyledTable [recAngleName] keyGain) "<x>" = true ∧
    strContains (generateStyledTable [recAngleName] keyGain) "&lt;" = false ∧
    htmlEscape "<x>" = "&lt;x&gt;" := by
  refine ⟨?_, ?_, ?_⟩ <;> with_unfolding_all rfl

/-- C3 (amended): the renderer escapes nothing at all: the table is
rendered with the escape hook disabled (`escape=False`, the identity on
every cell), the anchor markup is emitted raw with the security name
interpolated verbatim and unsanitized, and the name's characters appear
as a contiguous substring of the rendered row — so a name containing
angle brackets or markup breaks the surrounding HTML. -/
theorem c3_renderer_escapes_nothing (r : Record) :
    (∀ s : String, applyEsc false s = s) ∧
    createLink r = "<a href=\"https://tw.stock.yahoo.com/quote/" ++
      pyStrip r.securityCode ++
      "\" style=\"text-decoration:none; color:#0066cc; font-weight:bold;\">" ++
      r.securityName ++ "</a>" ∧
    List.IsInfix r.securityName.data (renderRow false (rowCells r)).data ∧
    generateStyledTable [r] keyGain = htmlTable false tableColumns [rowCells r] := by
  refine ⟨fun s => rfl, rfl, ?_, ?_⟩
  · have hrow : renderRow false (rowCells r) =
        ("<tr>" ++ ("<td>" ++ r.securityCode ++ "</td>") ++
          ("<td>" ++ ("<a href=\"https://tw.stock.yahoo.com/quote/" ++
            pyStrip r.securityCode ++
            "\" style=\"text-decoration:none; color:#0066cc; font-weight:bold;\">"))) ++
        r.securityName ++
        ("</a>" ++ "</td>" ++
          ("<td>" ++ showPVal r.closingPrice ++ "</td>") ++
          ("<td>" ++ formatChangeColor r.percentChange ++ "</td>") ++
          ("<td>" ++ showPVal r.turnoverHundredMillion ++ "</td>") ++ "</tr>") := by
      simp only [renderRow, rowCells, applyEsc, createLink, String.join, List.map,
        List.foldl, if_false, Bool.false_eq_true, String.append_assoc]
      rfl
    rw [hrow]
    exact List.infix_append _ _ _
  · rw [generateStyledTable, rankView, sortValuesDesc_singleton]
    rfl
